import Mathlib

/-!
Verification development for the camera streaming subsystem of
`homebridge-daelim-smarthome` (`src/homebridge/accessories/camera.ts`).

The TypeScript code is shallowly embedded: JavaScript `Map<string, V>` becomes
an association list with first-match lookup and in-place update, timers become
explicit deadlines (absolute milliseconds), asynchronous handlers become pure
state-transition functions, and the caught/thrown distinction of each
`try/catch` is made explicit in the returned action log.
-/

namespace DaelimCamera

/-! ## JavaScript `Map<string, V>` as an association list

`Map.get` returns the entry for the key (first and only match), `Map.set`
updates an existing entry in place or appends, `Map.delete` removes the entry.
-/

def jsMapGet {α : Type} : List (String × α) → String → Option α
  | [], _ => none
  | p :: rest, k => if p.1 = k then some p.2 else jsMapGet rest k

def jsMapSet {α : Type} : List (String × α) → String → α → List (String × α)
  | [], k, v => [(k, v)]
  | p :: rest, k, v => if p.1 = k then (k, v) :: rest else p :: jsMapSet rest k v

def jsMapDelete {α : Type} : List (String × α) → String → List (String × α)
  | [], _ => []
  | p :: rest, k => if p.1 = k then jsMapDelete rest k else p :: jsMapDelete rest k

/-! ## Character-level string primitives

JS string operations are embedded on `List Char` (structurally recursive, so
concrete runs compute): `split` with a one-character separator, prefix test,
and `trim`.
-/

/-- JS `s.split(sep)` for a one-character separator: `"".split` gives
`[""]`, separators at the edges give empty pieces. -/
def splitChars (sep : Char) : List Char → List (List Char)
  | [] => [[]]
  | c :: cs =>
      let rest := splitChars sep cs
      if c = sep then [] :: rest
      else
        match rest with
        | r :: rs => (c :: r) :: rs
        | [] => [[c]]

def charsStartsWith : List Char → List Char → Bool
  | _, [] => true
  | [], _ :: _ => false
  | c :: cs, p :: ps => c = p && charsStartsWith cs ps

/-- JS `s.indexOf(pre) === 0`, i.e. a prefix test. -/
def jsStartsWith (s pre : String) : Bool := charsStartsWith s.data pre.data

/-- JS `s.trim()`: strip whitespace from both ends. -/
def jsTrim (s : String) : String :=
  String.mk (((s.data.dropWhile (fun c => c.isWhitespace)).reverse.dropWhile
    (fun c => c.isWhitespace)).reverse)

/-! ## JavaScript number parsing

`parseInt` / `parseFloat` never throw; on unparseable input they evaluate to
`NaN`.  The embedding models a numeric field as an `Option`: `none` is `NaN`.
For `parseFloat` only NaN-ness is ever observed by the program, so the model
keeps the accepted numeric literal as text instead of a floating-point value
(exponent suffixes, accepted by JS, are not modelled: no input in scope uses
them and only `none`-vs-`some` is ever inspected).
-/

def digitsToNat (ds : List Char) : Nat :=
  ds.foldl (fun acc c => acc * 10 + (c.toNat - 48)) 0

def jsParseInt (s : String) : Option Int :=
  let cs := s.data.dropWhile (fun c => c.isWhitespace)
  let signed : Bool × List Char :=
    match cs with
    | c :: rest => if c = '-' then (true, rest) else if c = '+' then (false, rest) else (false, cs)
    | [] => (false, [])
  let ds := signed.2.takeWhile (fun c => c.isDigit)
  if ds.isEmpty then none
  else if signed.1 then some (-(digitsToNat ds : Int)) else some (digitsToNat ds : Int)

def jsParseFloat (s : String) : Option String :=
  let cs := s.data.dropWhile (fun c => c.isWhitespace)
  let signed : List Char × List Char :=
    match cs with
    | c :: rest => if c = '-' ∨ c = '+' then ([c], rest) else ([], cs)
    | [] => ([], [])
  let intPart := signed.2.takeWhile (fun c => c.isDigit)
  let rest2 := signed.2.dropWhile (fun c => c.isDigit)
  let fracPart : List Char :=
    match rest2 with
    | '.' :: r => '.' :: r.takeWhile (fun c => c.isDigit)
    | _ => []
  if intPart.isEmpty ∧ (fracPart.isEmpty ∨ fracPart = ['.']) then none
  else some (String.mk (signed.1 ++ intPart ++ fracPart))

/-- The `undefined`-tolerant forms: `parseInt(undefined)` is `NaN`. -/
def jsParseIntOpt : Option String → Option Int
  | none => none
  | some s => jsParseInt s

def jsParseFloatOpt : Option String → Option String
  | none => none
  | some s => jsParseFloat s

/-! ## Video configuration

`CameraAccessories` constructs one fixed `VideoConfig` (camera.ts lines
99-112); `camCfg` below is that object.
-/

structure VideoConfig where
  maxStreams : Option Nat := none
  maxWidth : Option Nat := none
  maxHeight : Option Nat := none
  codec : Option String := none
  packetSize : Option Nat := none
  forceMax : Bool
  videoFilter : Option String := none
  encoderOptions : Option String := none
  mapVideo : Option String := none
  mapAudio : Option String := none
  audio : Bool
  returnAudioTarget : Option String := none
deriving DecidableEq, Repr

def camCfg : VideoConfig :=
  { maxStreams := some 2
    maxWidth := some 1280
    maxHeight := some 720
    codec := some "libx264"
    packetSize := some 1316
    forceMax := true
    videoFilter := none
    encoderOptions := none
    mapVideo := none
    mapAudio := none
    audio := false
    returnAudioTarget := none }

/-! ## determineResolution (camera.ts lines 383-412) -/

structure VideoDims where
  width : Nat
  height : Nat
deriving DecidableEq, Repr

/-- `resInfo.snapshotFilter` is assigned unconditionally in the source (a
string, possibly empty — the empty string is falsy where it is later used),
so it is a plain `String` here; `videoFilter` and `resizeFilter` stay
optional. -/
structure ResolutionInfo where
  width : Nat
  height : Nat
  videoFilter : Option String := none
  snapshotFilter : String := ""
  resizeFilter : Option String := none
deriving DecidableEq, Repr

/-- A single-quote character, used inside ffmpeg filter expressions. -/
def sq : String := String.singleton (Char.ofNat 39)

def scaleFilterString (w h : Nat) : String :=
  "scale=" ++ (if w > 0 then sq ++ "min(" ++ toString w ++ ",iw)" ++ sq else "iw")
    ++ ":" ++ (if h > 0 then sq ++ "min(" ++ toString h ++ ",ih)" ++ sq else "ih")
    ++ ":force_original_aspect_ratio=decrease"

def evenScaleFilter : String := "scale=trunc(iw/2)*2:trunc(ih/2)*2"

def determineResolution (cfg : VideoConfig) (request : VideoDims) (isSnapshot : Bool) :
    ResolutionInfo :=
  let w : Nat :=
    if !isSnapshot then
      match cfg.maxWidth with
      | some mw => if cfg.forceMax || decide (request.width > mw) then mw else request.width
      | none => request.width
    else request.width
  let h : Nat :=
    if !isSnapshot then
      match cfg.maxHeight with
      | some mh => if cfg.forceMax || decide (request.height > mh) then mh else request.height
      | none => request.height
    else request.height
  let filters0 : List String :=
    match cfg.videoFilter with
    | some s => (splitChars ',' s.data).map String.mk
    | none => []
  -- `indexOf("none") >= 0` followed by `splice` removing that first occurrence
  let hasNone := filters0.contains "none"
  let filters1 := if hasNone then filters0.erase "none" else filters0
  let applyResize := !hasNone && (decide (w > 0) || decide (h > 0))
  let resizeF : Option String := if applyResize then some (scaleFilterString w h) else none
  let filters2 :=
    if applyResize then filters1 ++ [scaleFilterString w h, evenScaleFilter] else filters1
  { width := w
    height := h
    snapshotFilter := String.intercalate "," filters1
    resizeFilter := resizeF
    videoFilter := if filters2.length > 0 then some (String.intercalate "," filters2) else none }

/-! ## FFmpegProcess.parseProgress (camera.ts lines 859-888)

`data.toString()` is split on `/\r?\n/`; each line is split on `"="` with
limit 2 into key and value (a line without `"="` maps its text to
`undefined`); the pairs are folded into a `Map`.  Building the result record
throws — caught, yielding `undefined` — exactly at the two non-null
`.trim()` calls, i.e. when the `out_time` or `progress` value is missing;
`parseInt`/`parseFloat` of a missing or garbage value yield `NaN` (`none`)
without throwing.
-/

/-- `input.split(/\r?\n/)`: split on newlines, a carriage return directly
before a newline belongs to the separator. -/
def jsSplitLines (s : String) : List String :=
  (splitChars '\n' s.data).map (fun l =>
    String.mk (if l.getLast? = some '\r' then l.dropLast else l))

/-- `line.split("=", 2)[0]`. -/
def lineKey (line : String) : String :=
  String.mk ((splitChars '=' line.data).headD [])

/-- `line.split("=", 2)[1]` — `undefined` when the line has no `"="`; when the
value itself contains `"="` the limit-2 split keeps only the text up to the
second separator. -/
def lineVal (line : String) : Option String :=
  ((splitChars '=' line.data)[1]?).map String.mk

def buildProgressMap (input : String) : List (String × Option String) :=
  (jsSplitLines input).foldl (fun m line => jsMapSet m (lineKey line) (lineVal line)) []

/-- `progress.get(k)` flattened: `undefined` both when the key is absent and
when the stored value is `undefined` — `.get(k)!.trim()` throws exactly when
this is `none`. -/
def jsMapGetVal (m : List (String × Option String)) (k : String) : Option String :=
  match jsMapGet m k with
  | some v => v
  | none => none

/-- Numeric fields are `Option`s with `none` = `NaN`; `parseFloat` fields keep
the accepted literal text (see `jsParseFloat`). -/
structure FFmpegProgress where
  frame : Option Int
  fps : Option String
  streamQ : Option String
  bitrate : Option String
  totalSize : Option Int
  outTimeMicroseconds : Option Int
  outTime : String
  duplicateFrames : Option Int
  dropFrames : Option Int
  speed : Option String
  progress : String
deriving DecidableEq, Repr

def parseProgress (input : String) : Option FFmpegProgress :=
  if jsStartsWith input "frame=" then
    let m := buildProgressMap input
    -- `progress.get("out_time")!.trim()` / `progress.get("progress")!.trim()`
    -- throw when the value is missing-or-undefined; the `catch` returns
    -- `undefined`.  Every other field tolerates a missing value as `NaN`.
    match jsMapGetVal m "out_time", jsMapGetVal m "progress" with
    | some outTimeRaw, some phaseRaw =>
        some { frame := jsParseIntOpt (jsMapGetVal m "frame")
               fps := jsParseFloatOpt (jsMapGetVal m "fps")
               streamQ := jsParseFloatOpt (jsMapGetVal m "stream_0_0q")
               bitrate := jsParseFloatOpt (jsMapGetVal m "bitrate")
               totalSize := jsParseIntOpt (jsMapGetVal m "total_size")
               outTimeMicroseconds := jsParseIntOpt (jsMapGetVal m "out_time_us")
               outTime := jsTrim outTimeRaw
               duplicateFrames := jsParseIntOpt (jsMapGetVal m "dup_frames")
               dropFrames := jsParseIntOpt (jsMapGetVal m "drop_frames")
               speed := jsParseFloatOpt (jsMapGetVal m "speed")
               progress := jsTrim phaseRaw }
    | _, _ => none
  else none

/-! ## FFmpegProcess ready-callback one-shot latch (camera.ts lines 785-857)

The constructor installs four handlers touching the optional `callback`:
  * stdout `data`: parses progress; sets `started` once `progress.frame > 0`;
  * stderr `line`: if `callback` is set, invoke it with success and clear it;
  * process `error` (spawn failure): if `callback` is set, invoke it with an
    `Error` — the source does NOT clear `callback` here — then tear the
    session down;
  * process `exit`: on an abnormal exit (not an expected kill with code 0,
    code neither `null` nor 255) tear down and, if `!started` and `callback`
    is set, invoke it with an `Error` — again without clearing — else send
    the hub-facing forced-stop signal.

Each recorded invocation is `true` for the success call, `false` for an
`Error` call.
-/

inductive FFEvent where
  | stdoutData (data : String)
  | stderrLine (line : String)
  | procError
  | procExit (code : Option Int) (killed : Bool) (killTimeoutArmed : Bool)
deriving DecidableEq, Repr

structure FFCallbackState where
  started : Bool
  callbackLive : Bool
  calls : List Bool
  teardowns : Nat
  forcedStops : Nat
deriving DecidableEq, Repr

def ffInit : FFCallbackState :=
  { started := false, callbackLive := true, calls := [], teardowns := 0, forcedStops := 0 }

/-- The stdout `data` handler body, applied to the parse result: `started`
flips once `progress` parsed and `progress.frame > 0` (a `NaN` frame compares
false); the rest is logging. -/
def ffApplyStdout (st : FFCallbackState) : Option FFmpegProgress → FFCallbackState
  | some pr =>
      if !st.started && (match pr.frame with | some f => decide (f > 0) | none => false) then
        { st with started := true }
      else st
  | none => st

def ffStep (st : FFCallbackState) : FFEvent → FFCallbackState
  | .stdoutData data => ffApplyStdout st (parseProgress data)
  | .stderrLine _ =>
      if st.callbackLive then
        { st with calls := st.calls ++ [true], callbackLive := false }
      else st
  | .procError =>
      let st2 := if st.callbackLive then { st with calls := st.calls ++ [false] } else st
      { st2 with teardowns := st2.teardowns + 1 }
  | .procExit code _killed killTimeoutArmed =>
      if killTimeoutArmed ∧ code = some 0 then st
      else if code = none ∨ code = some 255 then st
      else
        let st2 := { st with teardowns := st.teardowns + 1 }
        if !st2.started ∧ st2.callbackLive then { st2 with calls := st2.calls ++ [false] }
        else { st2 with forcedStops := st2.forcedStops + 1 }

def ffRun (evs : List FFEvent) : FFCallbackState := evs.foldl ffStep ffInit

/-- Event classes that touch only `started` or the stderr one-shot site. -/
def ffBenign : FFEvent → Bool
  | .stdoutData _ => true
  | .stderrLine _ => true
  | .procError => false
  | .procExit _ _ _ => false

def isStderrLine : FFEvent → Bool
  | .stderrLine _ => true
  | _ => false

/-! ## Session state machine (camera.ts lines 274-305, 524-762)

`VisitorOnCameraStreamingDelegate` holds `pendingSessions : Map<string,
SessionInfo>` and `ongoingSessions : Map<string, ActiveSession>`.  Buffers are
byte lists; SRTP crypto suites are numbers.  `prepareStream`'s two
`pickPort` results and two generated synchronisation sources are external
inputs, passed in as a `PortAllocation`.
-/

structure SessionInfo where
  address : String
  ipv6 : Bool
  videoPort : Nat
  videoReturnPort : Nat
  videoCryptoSuite : Nat
  videoSRTP : List Nat
  videoSSRC : Nat
  audioPort : Nat
  audioReturnPort : Nat
  audioCryptoSuite : Nat
  audioSRTP : List Nat
  audioSSRC : Nat
deriving DecidableEq, Repr

/-- An `ActiveSession`'s resources as created by `startStream`.  `timeout`
holds the armed inactivity deadline in absolute milliseconds — it is `none`
right after `startStream`, because the source arms it only inside the
socket's `"message"` handler. -/
structure ActiveSession where
  hasMainProcess : Bool
  hasReturnProcess : Bool
  timeout : Option Nat
  hasFeedInterval : Bool
  hasSocket : Bool
deriving DecidableEq, Repr

structure DelegateState where
  pendingSessions : List (String × SessionInfo)
  ongoingSessions : List (String × ActiveSession)
deriving DecidableEq, Repr

def emptyDelegateState : DelegateState :=
  { pendingSessions := [], ongoingSessions := [] }

structure PrepareRequest where
  sessionID : String
  addressVersion : String
  targetAddress : String
  videoPort : Nat
  videoSrtpCryptoSuite : Nat
  videoSrtpKey : List Nat
  videoSrtpSalt : List Nat
  audioPort : Nat
  audioSrtpCryptoSuite : Nat
  audioSrtpKey : List Nat
  audioSrtpSalt : List Nat
deriving DecidableEq, Repr

/-- Results of the two `pickPort` calls and the two generated SSRCs. -/
structure PortAllocation where
  videoReturnPort : Nat
  videoSSRC : Nat
  audioReturnPort : Nat
  audioSSRC : Nat
deriving DecidableEq, Repr

structure PrepareResponse where
  videoPort : Nat
  videoSSRC : Nat
  videoSrtpKey : List Nat
  videoSrtpSalt : List Nat
  audioPort : Nat
  audioSSRC : Nat
  audioSrtpKey : List Nat
  audioSrtpSalt : List Nat
deriving DecidableEq, Repr

/-- `prepareStream` (lines 715-762): builds the `SessionInfo`, stores it under
the session id, and answers with the allocated ports/SSRCs echoing the
supplied key/salt. -/
def prepareStream (alloc : PortAllocation) (request : PrepareRequest) (st : DelegateState) :
    DelegateState × PrepareResponse :=
  let ipv6 := request.addressVersion = "ipv6"
  let sessionInfo : SessionInfo :=
    { address := request.targetAddress
      ipv6 := ipv6
      videoPort := request.videoPort
      videoReturnPort := alloc.videoReturnPort
      videoCryptoSuite := request.videoSrtpCryptoSuite
      videoSRTP := request.videoSrtpKey ++ request.videoSrtpSalt
      videoSSRC := alloc.videoSSRC
      audioPort := request.audioPort
      audioReturnPort := alloc.audioReturnPort
      audioCryptoSuite := request.audioSrtpCryptoSuite
      audioSRTP := request.audioSrtpKey ++ request.audioSrtpSalt
      audioSSRC := alloc.audioSSRC }
  let response : PrepareResponse :=
    { videoPort := alloc.videoReturnPort
      videoSSRC := alloc.videoSSRC
      videoSrtpKey := request.videoSrtpKey
      videoSrtpSalt := request.videoSrtpSalt
      audioPort := alloc.audioReturnPort
      audioSSRC := alloc.audioSSRC
      audioSrtpKey := request.audioSrtpKey
      audioSrtpSalt := request.audioSrtpSalt }
  ({ st with pendingSessions := jsMapSet st.pendingSessions request.sessionID sessionInfo },
   response)

structure StartRequest where
  sessionID : String
  videoWidth : Nat
  videoHeight : Nat
  fps : Nat
  maxBitrate : Nat
  rtcpInterval : Nat
  payloadType : Nat
  audioCodec : String
deriving DecidableEq, Repr

inductive StartOutcome where
  | started
  | sessionNotFound (message : String)
deriving DecidableEq, Repr

/-- `startStream` (lines 524-668), state effects.  The ffmpeg argument-string
assembly (lines 527-609 and 630-655) is pure string building with no effect
on the session maps and no bearing on the claims, and is elided; the
`ActiveSession` construction and the two map mutations are kept faithfully:
on a hit the socket is created and bound, the main process is spawned, the
return process is spawned only when `returnAudioTarget` is configured, the
feed interval is started, the inactivity `timeout` is left unarmed, the id is
set in `ongoingSessions` and deleted from `pendingSessions`; on a miss the
error callback is reported and the state is untouched. -/
def startStream (cfg : VideoConfig) (request : StartRequest) (st : DelegateState) :
    DelegateState × StartOutcome :=
  match jsMapGet st.pendingSessions request.sessionID with
  | some _sessionInfo =>
      let activeSession : ActiveSession :=
        { hasSocket := true
          timeout := none
          hasMainProcess := true
          hasReturnProcess := cfg.returnAudioTarget.isSome
          hasFeedInterval := true }
      ({ pendingSessions := jsMapDelete st.pendingSessions request.sessionID
         ongoingSessions := jsMapSet st.ongoingSessions request.sessionID activeSession },
       StartOutcome.started)
  | none => (st, StartOutcome.sessionNotFound "Error finding session information")

/-- One release step attempted by `stopStream`; the `caughtError` flag on the
three `try`-wrapped releases records that the release threw and the error was
caught and logged (it never escapes `stopStream`). -/
inductive ReleaseAction where
  | clearInactivityTimeout
  | clearFeedInterval
  | closeSocket (caughtError : Bool)
  | stopMainProcess (caughtError : Bool)
  | stopReturnProcess (caughtError : Bool)
deriving DecidableEq, Repr

/-- Fault injection: which of the three fallible releases throws. -/
structure ReleaseFaults where
  socketCloseThrows : Bool := false
  mainStopThrows : Bool := false
  returnStopThrows : Bool := false
deriving DecidableEq, Repr

/-- `stopStream` (lines 670-697).  With an `ongoingSessions` hit: clear the
inactivity timeout and the feed interval when armed, then close the socket
and stop the main and return processes, each inside its own `try/catch` so a
thrown error is logged and the remaining releases still run.  The map entry
is deleted unconditionally — also on a miss, where the delete is a no-op and
only the log line is emitted.  The function is total: no path rethrows. -/
def stopStream (faults : ReleaseFaults) (sessionId : String) (st : DelegateState) :
    DelegateState × List ReleaseAction :=
  let acts : List ReleaseAction :=
    match jsMapGet st.ongoingSessions sessionId with
    | some session =>
        (if session.timeout.isSome then [ReleaseAction.clearInactivityTimeout] else [])
        ++ (if session.hasFeedInterval then [ReleaseAction.clearFeedInterval] else [])
        ++ (if session.hasSocket then [ReleaseAction.closeSocket faults.socketCloseThrows] else [])
        ++ (if session.hasMainProcess then
              [ReleaseAction.stopMainProcess faults.mainStopThrows] else [])
        ++ (if session.hasReturnProcess then
              [ReleaseAction.stopReturnProcess faults.returnStopThrows] else [])
    | none => []
  ({ st with ongoingSessions := jsMapDelete st.ongoingSessions sessionId }, acts)

/-! ## Liveness socket and inactivity timer (camera.ts lines 611-627) -/

/-- `request.video.rtcp_interval * 5 * 1000` milliseconds. -/
def livenessDeadlineMs (rtcpInterval : Nat) : Nat := rtcpInterval * 5 * 1000

/-- The socket `"message"` handler: `clearTimeout` any armed timer, then arm a
fresh one `rtcp_interval × 5` seconds from now. -/
def onSocketMessage (rtcpInterval : Nat) (now : Nat) (session : ActiveSession) : ActiveSession :=
  { session with timeout := some (now + livenessDeadlineMs rtcpInterval) }

/-- Runs a (time-ordered) trace of inbound-datagram times against the armed
deadline, starting from the state `startStream` leaves behind (`armed`
begins as `none`).  Returns the absolute time at which the inactivity stop
fires, or `none` if it never does: a datagram arriving strictly before the
armed deadline re-arms it; a deadline reached before the next datagram fires
the stop and ends the session. -/
def runLiveness (rtcpInterval : Nat) : List Nat → Option Nat → Option Nat
  | [], armed => armed
  | t :: rest, none => runLiveness rtcpInterval rest (some (t + livenessDeadlineMs rtcpInterval))
  | t :: rest, some d =>
      if t < d then runLiveness rtcpInterval rest (some (t + livenessDeadlineMs rtcpInterval))
      else some d

def livenessFireTime (rtcpInterval : Nat) (datagrams : List Nat) : Option Nat :=
  runLiveness rtcpInterval datagrams none

inductive HubSignal where
  | forceStopStreamingSession (sessionId : String)
deriving DecidableEq, Repr

/-- The inactivity-timeout callback (lines 621-625): log, signal the hub-facing
forced stop, then `stopStream` internally. -/
def onLivenessTimeout (sessionId : String) (st : DelegateState) :
    DelegateState × List HubSignal × List ReleaseAction :=
  let stopped := stopStream {} sessionId st
  (stopped.1, [HubSignal.forceStopStreamingSession sessionId], stopped.2)

/-! ## Snapshot pipeline (camera.ts lines 414-522)

`snapshotPromise` is the in-flight slot; a fetch is a transcoder invocation
recorded with the `snapshotFilter` string it was given (the empty string is
falsy, so no `-filter:v` argument is emitted for it).  The ffmpeg `close`
handler resolves the promise and schedules the slot to be cleared 3 seconds
later; `snapshotTimePasses` fires that scheduled clear once its time is
reached. -/

structure SnapshotState where
  slot : Option Nat
  clearAt : Option Nat
  nextFetchId : Nat
  fetchLog : List (Nat × String)
deriving DecidableEq, Repr

def snapInit : SnapshotState :=
  { slot := none, clearAt := none, nextFetchId := 0, fetchLog := [] }

/-- What `handleSnapshotRequest` hands back: which fetch produced the raw
image, whether the in-flight slot was used, and the resize filter applied
afterwards (always the current request's). -/
structure SnapshotResult where
  fetchId : Nat
  usedCache : Bool
  resizeFilter : Option String
deriving DecidableEq, Repr

/-- `fetchSnapshot` (lines 414-476): spawns one transcoder with the given
snapshot filter and installs the new promise in the slot. -/
def fetchSnapshot (filter : String) (st : SnapshotState) : SnapshotState × Nat :=
  let id := st.nextFetchId
  ({ st with
      slot := some id
      nextFetchId := id + 1
      fetchLog := st.fetchLog ++ [(id, filter)] },
   id)

/-- The fetch's `close` handler resolving at time `now`: schedules the slot
clear for `now + 3000` (lines 456-458). -/
def resolveSnapshotFetch (now : Nat) (st : SnapshotState) : SnapshotState :=
  { st with clearAt := some (now + 3 * 1000) }

def snapshotTimePasses (now : Nat) (st : SnapshotState) : SnapshotState :=
  match st.clearAt with
  | some c => if c ≤ now then { st with slot := none, clearAt := none } else st
  | none => st

/-- `handleSnapshotRequest` (lines 508-522):
`await (this.snapshotPromise || this.fetchSnapshot(resolution.snapshotFilter))`
then resize with the current request's `resolution.resizeFilter`. -/
def handleSnapshotRequest (cfg : VideoConfig) (request : VideoDims) (st : SnapshotState) :
    SnapshotState × SnapshotResult :=
  let resolution := determineResolution cfg request true
  match st.slot with
  | some id =>
      (st, { fetchId := id, usedCache := true, resizeFilter := resolution.resizeFilter })
  | none =>
      let fetched := fetchSnapshot resolution.snapshotFilter st
      (fetched.1,
       { fetchId := fetched.2, usedCache := false, resizeFilter := resolution.resizeFilter })

/-! ## Visitor motion timer (camera.ts lines 90, 146-160, 225-239) -/

structure VisitorOnCameraInfo where
  index : Int
  cameraLocation : String
  date : String
  mediaType : String
  isNew : Bool
  snapshot : Option (List Nat)
deriving DecidableEq, Repr

/-- The accessory context fields the motion logic touches; `motionTimer` holds
the armed absolute expiry time. -/
structure CameraContextState where
  motionOnCamera : Bool
  visitorInfo : Option VisitorOnCameraInfo
  motionTimer : Option Nat
deriving DecidableEq, Repr

def CAMERA_TIMEOUT_DURATION : Nat := 2 * 60 * 1000

/-- The `createMotionTimer` callback (lines 148-159): clears the timer handle,
the stored visitor info and the motion flag. -/
def onMotionTimerFire (_ctx : CameraContextState) : CameraContextState :=
  { motionOnCamera := false, visitorInfo := none, motionTimer := none }

/-- The visitor-picture-stored listener's accessory update (lines 227-236):
`clearTimeout` any prior timer (here: the overwrite of `motionTimer`), store
the visitor info, arm `createMotionTimer` for `CAMERA_TIMEOUT_DURATION` from
now, raise the motion flag. -/
def onVisitorPictureStored (now : Nat) (info : VisitorOnCameraInfo)
    (_ctx : CameraContextState) : CameraContextState :=
  { motionOnCamera := true
    visitorInfo := some info
    motionTimer := some (now + CAMERA_TIMEOUT_DURATION) }

/-- The motion-detected characteristic read (lines 124-128). -/
def readMotionDetected (ctx : CameraContextState) : Bool := ctx.motionOnCamera

/-! ## Concrete fixtures used by counterexamples and witnesses -/

def camCfgNoForce : VideoConfig := { camCfg with forceMax := false }

def egPrepareRequest : PrepareRequest :=
  { sessionID := "s"
    addressVersion := "ipv4"
    targetAddress := "192.168.0.10"
    videoPort := 51000
    videoSrtpCryptoSuite := 0
    videoSrtpKey := [1, 2]
    videoSrtpSalt := [3]
    audioPort := 51002
    audioSrtpCryptoSuite := 0
    audioSrtpKey := [4, 5]
    audioSrtpSalt := [6] }

def egAlloc : PortAllocation :=
  { videoReturnPort := 40000, videoSSRC := 111, audioReturnPort := 40002, audioSSRC := 222 }

def egStartRequest : StartRequest :=
  { sessionID := "s"
    videoWidth := 1280
    videoHeight := 720
    fps := 30
    maxBitrate := 299
    rtcpInterval := 2
    payloadType := 99
    audioCodec := "AAC-eld" }

/-- State after one `prepareStream` for session `"s"` from the empty state. -/
def c3Prepared : DelegateState :=
  (prepareStream egAlloc egPrepareRequest emptyDelegateState).1

/-- prepare `"s"` → start `"s"` → prepare `"s"` again. -/
def c3DoublePrepared : DelegateState :=
  (prepareStream egAlloc egPrepareRequest
    (startStream camCfg egStartRequest c3Prepared).1).1

/-- No session id may sit in both session maps at once. -/
def disjointSessions (st : DelegateState) : Prop :=
  ∀ k : String, (jsMapGet st.pendingSessions k).isSome = true →
    (jsMapGet st.ongoingSessions k).isSome = true → False

def egFullSession : ActiveSession :=
  { hasMainProcess := true
    hasReturnProcess := true
    timeout := some 5000
    hasFeedInterval := true
    hasSocket := true }

def egStopState : DelegateState :=
  { pendingSessions := [], ongoingSessions := [("s", egFullSession)] }

def allFaults : ReleaseFaults :=
  { socketCloseThrows := true, mainStopThrows := true, returnStopThrows := true }

/-- Snapshot scenario: request at t=0, second request while in flight, fetch
resolves at t=2000, time passes to t=6000 (4 s after resolution), third
request. -/
def snapReq1 : SnapshotState × SnapshotResult :=
  handleSnapshotRequest camCfg ⟨1280, 720⟩ snapInit

def snapReq2 : SnapshotState × SnapshotResult :=
  handleSnapshotRequest camCfg ⟨640, 360⟩ snapReq1.1

def snapResolved : SnapshotState := resolveSnapshotFetch 2000 snapReq2.1

def snapAfter4s : SnapshotState := snapshotTimePasses 6000 snapResolved

def snapReq3 : SnapshotState × SnapshotResult :=
  handleSnapshotRequest camCfg ⟨1280, 720⟩ snapAfter4s

def egCachedSnapshotState : SnapshotState :=
  { slot := some 0, clearAt := none, nextFetchId := 1, fetchLog := [(0, "")] }

/-! ## Association-list lemmas for the `Map` embedding -/

theorem jsMapGet_set_self {α : Type} (m : List (String × α)) (k : String) (v : α) :
    jsMapGet (jsMapSet m k v) k = some v := by
  induction m with
  | nil => simp [jsMapSet, jsMapGet]
  | cons p rest ih =>
      by_cases h : p.1 = k
      · simp [jsMapSet, jsMapGet, h]
      · simp [jsMapSet, jsMapGet, h, ih]

theorem jsMapGet_set_ne {α : Type} (m : List (String × α)) (k k2 : String) (v : α)
    (hne : k ≠ k2) : jsMapGet (jsMapSet m k v) k2 = jsMapGet m k2 := by
  induction m with
  | nil => simp [jsMapSet, jsMapGet, hne]
  | cons p rest ih =>
      by_cases h : p.1 = k
      · simp [jsMapSet, jsMapGet, h, hne]
      · simp [jsMapSet, jsMapGet, h, ih]

theorem jsMapGet_delete_self {α : Type} (m : List (String × α)) (k : String) :
    jsMapGet (jsMapDelete m k) k = none := by
  induction m with
  | nil => simp [jsMapDelete, jsMapGet]
  | cons p rest ih =>
      by_cases h : p.1 = k
      · simp [jsMapDelete, h, ih]
      · simp [jsMapDelete, jsMapGet, h, ih]

theorem jsMapGet_delete_ne {α : Type} (m : List (String × α)) (k k2 : String)
    (hne : k ≠ k2) : jsMapGet (jsMapDelete m k) k2 = jsMapGet m k2 := by
  induction m with
  | nil => simp [jsMapDelete]
  | cons p rest ih =>
      by_cases h : p.1 = k
      · have h2 : p.1 ≠ k2 := by rw [h]; exact hne
        simp [jsMapDelete, jsMapGet, h, h2, ih, hne]
      · simp [jsMapDelete, jsMapGet, h, ih]

theorem jsMapDelete_of_get_none {α : Type} (m : List (String × α)) (k : String)
    (hnone : jsMapGet m k = none) : jsMapDelete m k = m := by
  induction m with
  | nil => simp [jsMapDelete]
  | cons p rest ih =>
      by_cases h : p.1 = k
      · simp [jsMapGet, h] at hnone
      · simp [jsMapGet, h] at hnone
        simp [jsMapDelete, h, ih hnone]

/-! ## Claim theorems -/

/-- C2: for every start request whose session id has no pending entry,
`startStream` reports the session-information-not-found error through the
caller's callback and returns the state unchanged — no Active entry is
created and both session maps are untouched. -/
theorem startStream_session_not_found :
    ∀ (cfg : VideoConfig) (request : StartRequest) (st : DelegateState),
      jsMapGet st.pendingSessions request.sessionID = none →
      startStream cfg request st
        = (st, StartOutcome.sessionNotFound "Error finding session information") := by
  intro cfg request st hnone
  simp [startStream, hnone]

theorem startStream_session_not_found_witness :
    startStream camCfg egStartRequest emptyDelegateState
      = (emptyDelegateState, StartOutcome.sessionNotFound "Error finding session information") :=
  startStream_session_not_found camCfg egStartRequest emptyDelegateState rfl

/-- C6: a second snapshot request issued while the first fetch is in flight
receives the identical in-flight fetch and only one transcoder invocation is
made; the slot is cleared 3 seconds after the fetch resolves (it is still
cached 2 seconds after resolution), so a request issued 4 seconds after
resolution starts a fresh fetch. -/
theorem snapshot_burst_coalesced :
    snapReq2.2.fetchId = snapReq1.2.fetchId
    ∧ snapReq2.2.usedCache = true
    ∧ snapReq2.1.fetchLog.length = 1
    ∧ snapResolved.clearAt = some 5000
    ∧ (snapshotTimePasses 4000 snapResolved).slot.isSome = true
    ∧ snapAfter4s.slot = none
    ∧ snapReq3.2.usedCache = false
    ∧ snapReq3.1.fetchLog.length = 2 :=
  ⟨rfl, rfl, rfl, rfl, rfl, rfl, rfl, rfl⟩

/-- C7: with the configured maxima 1280×720 and `forceMax = true`, a
live-stream request of 1920×1080 is clamped to 1280×720 with a resize filter
present; with `forceMax = false` a request at or below both maxima keeps its
requested dimensions; and a snapshot request is never clamped, for any
configuration. -/
theorem determineResolution_clamping :
    ((determineResolution camCfg ⟨1920, 1080⟩ false).width = 1280
      ∧ (determineResolution camCfg ⟨1920, 1080⟩ false).height = 720
      ∧ (determineResolution camCfg ⟨1920, 1080⟩ false).resizeFilter.isSome = true)
    ∧ (∀ w h : Nat, w ≤ 1280 → h ≤ 720 →
        (determineResolution camCfgNoForce ⟨w, h⟩ false).width = w
        ∧ (determineResolution camCfgNoForce ⟨w, h⟩ false).height = h)
    ∧ (∀ (cfg : VideoConfig) (req : VideoDims),
        (determineResolution cfg req true).width = req.width
        ∧ (determineResolution cfg req true).height = req.height) := by
  refine ⟨⟨rfl, rfl, rfl⟩, ?_, ?_⟩
  · intro w h hw hh
    constructor <;> simp [determineResolution, camCfgNoForce, camCfg] <;> omega
  · intro cfg req
    exact ⟨rfl, rfl⟩

theorem determineResolution_clamping_witness :
    (determineResolution camCfgNoForce ⟨640, 360⟩ false).width = 640
    ∧ (determineResolution camCfgNoForce ⟨640, 360⟩ false).height = 360 :=
  determineResolution_clamping.2.1 640 360 (by decide) (by decide)

/-- C8: a visitor event at time `now` arms the motion timer for exactly
`CAMERA_TIMEOUT_DURATION = 120000` ms (replacing any previously armed timer)
and raises the motion flag; absent an intervening event, the timer's expiry
clears the stored visitor snapshot, the timer handle and the motion flag, so
a subsequent motion-detected read returns `false` with no pending
snapshot. -/
theorem motion_timer_auto_clear :
    ∀ (now : Nat) (info : VisitorOnCameraInfo) (ctx : CameraContextState),
      (onVisitorPictureStored now info ctx).motionTimer = some (now + 120000)
      ∧ (onVisitorPictureStored now info ctx).motionOnCamera = true
      ∧ CAMERA_TIMEOUT_DURATION = 120000
      ∧ readMotionDetected (onMotionTimerFire (onVisitorPictureStored now info ctx)) = false
      ∧ (onMotionTimerFire (onVisitorPictureStored now info ctx)).visitorInfo = none
      ∧ (onMotionTimerFire (onVisitorPictureStored now info ctx)).motionTimer = none :=
  fun _ _ _ => ⟨rfl, rfl, rfl, rfl, rfl, rfl⟩

/-- C10: when a request arrives while a previous fetch's promise is cached,
`handleSnapshotRequest` returns that cached fetch untouched — no new
transcoder invocation is made and the fetch log (which records the snapshot
filter each fetch was invoked with) is unchanged, so the new request's
snapshot filter is never applied to a fetch — while the resize step still
uses the new request's own resize filter. -/
theorem snapshot_cache_reuses_fetch :
    ∀ (cfg : VideoConfig) (request : VideoDims) (st : SnapshotState) (id : Nat),
      st.slot = some id →
      (handleSnapshotRequest cfg request st).1 = st
      ∧ (handleSnapshotRequest cfg request st).2.fetchId = id
      ∧ (handleSnapshotRequest cfg request st).2.usedCache = true
      ∧ (handleSnapshotRequest cfg request st).1.fetchLog = st.fetchLog
      ∧ (handleSnapshotRequest cfg request st).2.resizeFilter
          = (determineResolution cfg request true).resizeFilter := by
  intro cfg request st id hslot
  simp [handleSnapshotRequest, hslot]

theorem snapshot_cache_reuses_fetch_witness :
    (handleSnapshotRequest camCfg ⟨640, 360⟩ egCachedSnapshotState).1 = egCachedSnapshotState
    ∧ (handleSnapshotRequest camCfg ⟨640, 360⟩ egCachedSnapshotState).2.fetchId = 0
    ∧ (handleSnapshotRequest camCfg ⟨640, 360⟩ egCachedSnapshotState).2.usedCache = true := by
  obtain ⟨h1, h2, h3, _⟩ :=
    snapshot_cache_reuses_fetch camCfg ⟨640, 360⟩ egCachedSnapshotState 0 rfl
  exact ⟨h1, h2, h3⟩

/-- C1: `stopStream` is total for every fault pattern (a throwing release is
caught, and every other present resource is still released): with no Active
entry it is a no-op apart from logging; with an Active entry it clears the
armed inactivity timer and the feed timer, attempts the socket close and the
termination of the main and return-audio supervisors regardless of which of
them throw, and removes the Active entry unconditionally; a second
`stopStream` for the same id releases no resource a second time. -/
theorem stopStream_idempotent_release_once :
    ∀ (st : DelegateState) (sessionId : String) (f f2 : ReleaseFaults),
      (jsMapGet st.ongoingSessions sessionId = none →
        (stopStream f sessionId st).1 = st ∧ (stopStream f sessionId st).2 = [])
      ∧ (∀ session : ActiveSession, jsMapGet st.ongoingSessions sessionId = some session →
          jsMapGet (stopStream f sessionId st).1.ongoingSessions sessionId = none
          ∧ (session.timeout.isSome = true →
              ReleaseAction.clearInactivityTimeout ∈ (stopStream f sessionId st).2)
          ∧ (session.hasFeedInterval = true →
              ReleaseAction.clearFeedInterval ∈ (stopStream f sessionId st).2)
          ∧ (session.hasSocket = true →
              ReleaseAction.closeSocket f.socketCloseThrows ∈ (stopStream f sessionId st).2)
          ∧ (session.hasMainProcess = true →
              ReleaseAction.stopMainProcess f.mainStopThrows ∈ (stopStream f sessionId st).2)
          ∧ (session.hasReturnProcess = true →
              ReleaseAction.stopReturnProcess f.returnStopThrows ∈ (stopStream f sessionId st).2))
      ∧ (stopStream f2 sessionId (stopStream f sessionId st).1).2 = [] := by
  intro st sessionId f f2
  refine ⟨?_, ?_, ?_⟩
  · intro hnone
    constructor
    · show ({ st with ongoingSessions := jsMapDelete st.ongoingSessions sessionId }
            : DelegateState) = st
      rw [jsMapDelete_of_get_none st.ongoingSessions sessionId hnone]
    · simp [stopStream, hnone]
  · intro session hsome
    refine ⟨?_, ?_, ?_, ?_, ?_, ?_⟩
    · exact jsMapGet_delete_self st.ongoingSessions sessionId
    · intro ht; simp [stopStream, hsome, ht]
    · intro hfi; simp [stopStream, hsome, hfi]
    · intro hs; simp [stopStream, hsome, hs]
    · intro hm; simp [stopStream, hsome, hm]
    · intro hr; simp [stopStream, hsome, hr]
  · have hgone : jsMapGet (jsMapDelete st.ongoingSessions sessionId) sessionId = none :=
      jsMapGet_delete_self st.ongoingSessions sessionId
    simp [stopStream, hgone]

theorem stopStream_idempotent_release_once_witness :
    jsMapGet (stopStream allFaults "s" egStopState).1.ongoingSessions "s" = none
    ∧ ReleaseAction.clearInactivityTimeout ∈ (stopStream allFaults "s" egStopState).2
    ∧ ReleaseAction.closeSocket true ∈ (stopStream allFaults "s" egStopState).2
    ∧ ReleaseAction.stopMainProcess true ∈ (stopStream allFaults "s" egStopState).2
    ∧ ReleaseAction.stopReturnProcess true ∈ (stopStream allFaults "s" egStopState).2
    ∧ (stopStream allFaults "s" (stopStream allFaults "s" egStopState).1).2 = [] := by
  obtain ⟨-, hsome, htwice⟩ :=
    stopStream_idempotent_release_once egStopState "s" allFaults allFaults
  obtain ⟨ha, hb, -, hc, hd, he⟩ := hsome egFullSession rfl
  exact ⟨ha, hb rfl, hc rfl, hd rfl, he rfl, htwice⟩

/-- C3 counterexample: after the completed sequence prepare("s"), start("s"),
prepare("s"), the session id "s" is present in the pending map and in the
ongoing map at once — `prepareStream` stores the pending entry without
checking the ongoing map. -/
theorem session_maps_overlap_counterexample :
    (jsMapGet c3DoublePrepared.pendingSessions "s").isSome = true
    ∧ (jsMapGet c3DoublePrepared.ongoingSessions "s").isSome = true :=
  ⟨rfl, rfl⟩

/-- C3 amended: `startStream` and `stopStream` preserve the
pending/ongoing-disjointness invariant from any state, and `prepareStream`
preserves it provided the prepared id has no Active entry (`prepareStream`
on a currently Active id is the one operation that breaks it); a successful
start moves the id from Pending to Active, replacing any prior Active
entry. -/
theorem session_state_invariant_amended :
    ∀ (cfg : VideoConfig) (request : StartRequest) (f : ReleaseFaults)
      (alloc : PortAllocation) (preq : PrepareRequest) (sessionId : String)
      (st : DelegateState),
      (disjointSessions st → disjointSessions (startStream cfg request st).1)
      ∧ (disjointSessions st → disjointSessions (stopStream f sessionId st).1)
      ∧ (disjointSessions st → jsMapGet st.ongoingSessions preq.sessionID = none →
          disjointSessions (prepareStream alloc preq st).1)
      ∧ (∀ info : SessionInfo, jsMapGet st.pendingSessions request.sessionID = some info →
          jsMapGet (startStream cfg request st).1.pendingSessions request.sessionID = none
          ∧ (jsMapGet (startStream cfg request st).1.ongoingSessions
              request.sessionID).isSome = true) := by
  intro cfg request f alloc preq sessionId st
  refine ⟨?_, ?_, ?_, ?_⟩
  · intro hdisj
    cases hpend : jsMapGet st.pendingSessions request.sessionID with
    | none => simpa [startStream, hpend] using hdisj
    | some info =>
        intro k hp ho
        simp only [startStream, hpend] at hp ho
        by_cases hk : request.sessionID = k
        · rw [← hk, jsMapGet_delete_self] at hp
          simp at hp
        · rw [jsMapGet_delete_ne _ _ _ hk] at hp
          rw [jsMapGet_set_ne _ _ _ _ hk] at ho
          exact hdisj k hp ho
  · intro hdisj k hp ho
    simp only [stopStream] at hp ho
    by_cases hk : sessionId = k
    · rw [← hk, jsMapGet_delete_self] at ho
      simp at ho
    · rw [jsMapGet_delete_ne _ _ _ hk] at ho
      exact hdisj k hp ho
  · intro hdisj hogone k hp ho
    simp only [prepareStream] at hp ho
    by_cases hk : preq.sessionID = k
    · rw [← hk] at ho
      rw [hogone] at ho
      simp at ho
    · rw [jsMapGet_set_ne _ _ _ _ hk] at hp
      exact hdisj k hp ho
  · intro info hpend
    refine ⟨?_, ?_⟩
    · simp only [startStream, hpend]
      exact jsMapGet_delete_self st.pendingSessions request.sessionID
    · simp only [startStream, hpend]
      rw [jsMapGet_set_self]
      rfl

theorem session_state_invariant_amended_witness :
    jsMapGet (startStream camCfg egStartRequest c3Prepared).1.pendingSessions "s" = none
    ∧ (jsMapGet (startStream camCfg egStartRequest c3Prepared).1.ongoingSessions
        "s").isSome = true := by
  have hmove := (session_state_invariant_amended camCfg egStartRequest {} egAlloc
    egPrepareRequest "s" c3Prepared).2.2.2
  exact hmove _ rfl

/-- C4 counterexample: right after `startStream` the session's inactivity
timer is unarmed (`timeout = none`), and a liveness run with zero inbound
datagrams never fires a stop — contradicting the claim that the session is
force-stopped when no datagram arrives within `rtcp_interval × 5` seconds of
start. -/
theorem liveness_timer_unarmed_counterexample :
    Option.map ActiveSession.timeout
        (jsMapGet (startStream camCfg egStartRequest c3Prepared).1.ongoingSessions "s")
      = some none
    ∧ livenessFireTime egStartRequest.rtcpInterval [] = none :=
  ⟨rfl, rfl⟩

/-- Once armed by a datagram at `prev`, a gap-bounded datagram trace keeps
re-arming the timer and it fires `livenessDeadlineMs` after the last
datagram. -/
theorem runLiveness_chain (ri : Nat) :
    ∀ (ts : List Nat) (prev : Nat),
      List.Chain' (fun a b => b < a + livenessDeadlineMs ri) (prev :: ts) →
      runLiveness ri ts (some (prev + livenessDeadlineMs ri))
        = some ((prev :: ts).getLastD 0 + livenessDeadlineMs ri) := by
  intro ts
  induction ts with
  | nil => intro prev _; rfl
  | cons t rest ih =>
      intro prev hchain
      have hlt : t < prev + livenessDeadlineMs ri :=
        (List.chain'_cons.mp hchain).1
      have htail : List.Chain' (fun a b => b < a + livenessDeadlineMs ri) (t :: rest) :=
        (List.chain'_cons.mp hchain).2
      show runLiveness ri (t :: rest) (some (prev + livenessDeadlineMs ri))
        = some ((prev :: t :: rest).getLastD 0 + livenessDeadlineMs ri)
      rw [runLiveness, if_pos hlt, ih t htail]
      rfl

/-- C4 amended: the inactivity timer is armed only by inbound datagrams — it
is unarmed right after start and stays so if no datagram ever arrives — and
each datagram (arriving before the pending deadline) resets it to a fresh
`rtcp_interval × 5` seconds; once at least one datagram has arrived, the
stop fires `rtcp_interval × 5 × 1000` ms after the last datagram, and the
timer's expiry handler emits the hub-facing forced-stop signal and removes
the Active entry via the internal stop. -/
theorem liveness_timer_amended :
    ∀ (ri now : Nat) (session : ActiveSession) (t : Nat) (ts : List Nat)
      (sessionId : String) (st : DelegateState),
      ((onSocketMessage ri now session).timeout = some (now + ri * 5 * 1000))
      ∧ (List.Chain' (fun a b => b < a + livenessDeadlineMs ri) (t :: ts) →
          livenessFireTime ri (t :: ts)
            = some ((t :: ts).getLastD 0 + livenessDeadlineMs ri))
      ∧ ((onLivenessTimeout sessionId st).2.1
            = [HubSignal.forceStopStreamingSession sessionId]
          ∧ jsMapGet (onLivenessTimeout sessionId st).1.ongoingSessions sessionId = none) := by
  intro ri now session t ts sessionId st
  refine ⟨rfl, ?_, rfl, ?_⟩
  · intro hchain
    show runLiveness ri (t :: ts) none = _
    rw [runLiveness, runLiveness_chain ri ts t hchain]
  · exact jsMapGet_delete_self st.ongoingSessions sessionId

theorem liveness_timer_amended_witness :
    livenessFireTime 2 [0, 5000] = some 15000
    ∧ jsMapGet (onLivenessTimeout "s" egStopState).1.ongoingSessions "s" = none := by
  obtain ⟨-, hfire, -, hstop⟩ :=
    liveness_timer_amended 2 0 egFullSession 0 [5000] "s" egStopState
  refine ⟨hfire ?_, hstop⟩
  refine List.chain'_cons.mpr ⟨?_, ?_⟩
  · norm_num [livenessDeadlineMs]
  · simp

/-! ### The ready-callback latch -/

theorem ffApplyStdout_preserves (st : FFCallbackState) (p : Option FFmpegProgress) :
    (ffApplyStdout st p).calls = st.calls
    ∧ (ffApplyStdout st p).callbackLive = st.callbackLive := by
  cases p with
  | none => exact ⟨rfl, rfl⟩
  | some pr =>
      simp only [ffApplyStdout]
      split <;> exact ⟨rfl, rfl⟩

theorem ffStep_stdout_preserves (st : FFCallbackState) (data : String) :
    (ffStep st (.stdoutData data)).calls = st.calls
    ∧ (ffStep st (.stdoutData data)).callbackLive = st.callbackLive :=
  ffApplyStdout_preserves st (parseProgress data)

theorem ffFold_dead :
    ∀ (evs : List FFEvent) (st : FFCallbackState),
      (∀ e ∈ evs, ffBenign e = true) → st.callbackLive = false →
      (evs.foldl ffStep st).calls = st.calls := by
  intro evs
  induction evs with
  | nil => intro st _ _; rfl
  | cons e rest ih =>
      intro st hb hdead
      have hbe : ffBenign e = true := hb e (List.mem_cons_self e rest)
      have hbr : ∀ e2 ∈ rest, ffBenign e2 = true :=
        fun e2 h2 => hb e2 (List.mem_cons_of_mem e h2)
      cases e with
      | stdoutData data =>
          have hpres := ffStep_stdout_preserves st data
          show (rest.foldl ffStep (ffStep st (.stdoutData data))).calls = st.calls
          rw [ih _ hbr (by rw [hpres.2]; exact hdead), hpres.1]
      | stderrLine line =>
          have hstep : ffStep st (.stderrLine line) = st := by
            simp [ffStep, hdead]
          show (rest.foldl ffStep (ffStep st (.stderrLine line))).calls = st.calls
          rw [hstep, ih _ hbr hdead]
      | procError => simp [ffBenign] at hbe
      | procExit c k a => simp [ffBenign] at hbe

theorem ffFold_benign_calls :
    ∀ (evs : List FFEvent) (st : FFCallbackState),
      (∀ e ∈ evs, ffBenign e = true) → st.callbackLive = true →
      (evs.foldl ffStep st).calls
        = st.calls ++ (if evs.any isStderrLine then [true] else []) := by
  intro evs
  induction evs with
  | nil => intro st _ _; simp
  | cons e rest ih =>
      intro st hb hlive
      have hbe : ffBenign e = true := hb e (List.mem_cons_self e rest)
      have hbr : ∀ e2 ∈ rest, ffBenign e2 = true :=
        fun e2 h2 => hb e2 (List.mem_cons_of_mem e h2)
      cases e with
      | stdoutData data =>
          have hpres := ffStep_stdout_preserves st data
          show (rest.foldl ffStep (ffStep st (.stdoutData data))).calls = _
          rw [ih _ hbr (by rw [hpres.2]; exact hlive), hpres.1]
          simp [List.any_cons, isStderrLine]
      | stderrLine line =>
          have hstep : ffStep st (.stderrLine line)
              = { st with calls := st.calls ++ [true], callbackLive := false } := by
            simp [ffStep, hlive]
          show (rest.foldl ffStep (ffStep st (.stderrLine line))).calls = _
          rw [hstep, ffFold_dead rest _ hbr rfl]
          simp [List.any_cons, isStderrLine]
      | procError => simp [ffBenign] at hbe
      | procExit c k a => simp [ffBenign] at hbe

/-- C5 counterexample: the interleaving "spawn-failure error event, then one
stderr diagnostic line" invokes the ready callback twice (once with failure,
once with success): the error-event site does not consume the one-shot
latch. -/
theorem ready_callback_double_fire_counterexample :
    (ffRun [FFEvent.procError, FFEvent.stderrLine "dummy"]).calls = [false, true]
    ∧ (ffRun [FFEvent.procError, FFEvent.stderrLine "dummy"]).calls.length = 2 :=
  ⟨rfl, rfl⟩

/-- C5 amended: only the stderr-line site consumes the latch, so over any
interleaving of stdout progress data and stderr diagnostic lines (no
spawn-failure and no exit event) the callback fires exactly at the first
diagnostic line, with success, and at most once; the spawn-failure and
abnormal-exit sites invoke the callback without consuming it, so an
interleaving containing one of those followed by another trigger can invoke
it again (see the counterexample). -/
theorem ready_callback_once_amended :
    ∀ evs : List FFEvent, (∀ e ∈ evs, ffBenign e = true) →
      (ffRun evs).calls = (if evs.any isStderrLine then [true] else [])
      ∧ (ffRun evs).calls.length ≤ 1 := by
  intro evs hb
  have h : (ffRun evs).calls
      = ffInit.calls ++ (if evs.any isStderrLine then [true] else []) :=
    ffFold_benign_calls evs ffInit hb rfl
  have h2 : (ffRun evs).calls = (if evs.any isStderrLine then [true] else []) := by
    simpa [ffInit] using h
  refine ⟨h2, ?_⟩
  rw [h2]
  split <;> simp

theorem ready_callback_once_amended_witness :
    (ffRun [FFEvent.stdoutData "x", FFEvent.stderrLine "y", FFEvent.stderrLine "z"]).calls
      = (if [FFEvent.stdoutData "x", FFEvent.stderrLine "y",
             FFEvent.stderrLine "z"].any isStderrLine then [true] else [])
    ∧ (ffRun [FFEvent.stdoutData "x", FFEvent.stderrLine "y",
              FFEvent.stderrLine "z"]).calls.length ≤ 1 :=
  ready_callback_once_amended
    [FFEvent.stdoutData "x", FFEvent.stderrLine "y", FFEvent.stderrLine "z"]
    (by intro e he; fin_cases he <;> rfl)

/-! ### parseProgress -/

/-- C9 counterexample: a chunk beginning with `frame=` whose numeric fields
are unparseable is not discarded — `parseProgress` returns a record whose
`frame` field is `NaN` (`none`), not `undefined`. -/
theorem parseProgress_garbage_record_counterexample :
    (parseProgress "frame=x\nout_time=a\nprogress=b").isSome = true
    ∧ Option.map FFmpegProgress.frame (parseProgress "frame=x\nout_time=a\nprogress=b")
        = some none :=
  ⟨rfl, rfl⟩

/-- C9 amended: `parseProgress` returns a record exactly when the chunk
begins with `frame=` and supplies values for `out_time` and `progress` (the
only fields whose absence makes the builder throw into the catch); any chunk
not beginning with `frame=` yields `undefined`; other malformed blocks are
not discarded — their unparseable numeric fields surface as `NaN` inside a
returned record. -/
theorem parseProgress_some_iff :
    ∀ input : String,
      ((parseProgress input).isSome = true ↔
        (jsStartsWith input "frame=" = true
        ∧ (jsMapGetVal (buildProgressMap input) "out_time").isSome = true
        ∧ (jsMapGetVal (buildProgressMap input) "progress").isSome = true))
      ∧ (jsStartsWith input "frame=" = false → parseProgress input = none) := by
  intro input
  constructor
  · by_cases hs : jsStartsWith input "frame=" = true
    · cases h1 : jsMapGetVal (buildProgressMap input) "out_time" with
      | none => simp [parseProgress, hs, h1]
      | some ot =>
          cases h2 : jsMapGetVal (buildProgressMap input) "progress" with
          | none => simp [parseProgress, hs, h1, h2]
          | some pg => simp [parseProgress, hs, h1, h2]
    · have hs2 : jsStartsWith input "frame=" = false := by
        revert hs; cases jsStartsWith input "frame=" <;> simp
      simp [parseProgress, hs2]
  · intro hs
    simp [parseProgress, hs]

theorem parseProgress_some_iff_witness :
    parseProgress "speed=1x" = none :=
  (parseProgress_some_iff "speed=1x").2 rfl

end DaelimCamera
